import Mathlib

/-
Verification of the command-execution and config-resolution layer of the
sublime-p4 plugin (src/p4.py) against its design specification.

Modelling conventions for the shallow embedding:
  * Absolute filesystem paths are lists of components: ["proj", "src", "a.txt"]
    stands for /proj/src/a.txt; the root "/" is the empty list.  Python's
    os.path.dirname corresponds to List.dropLast, and os.path.join dir name
    corresponds to appending [name].  The raw string form of a path (used by
    the plain string-prefix test file_path.startswith(client_root)) is
    recovered with renderPath.
  * Byte streams delivered by the subprocess are modelled post-UTF-8-decode as
    Lean String values; bytes-vs-str is retained in the value returned to the
    caller (StreamVal), because Python keeps the raw bytes object when the
    stream is empty and only decodes when it is non-empty.
  * Python exceptions are modelled with Except PyError; ValueError, TypeError
    and KeyError are the ones the code can actually raise in this layer.
  * Effects (subprocess spawns, _warn_user calls, print calls) are collected
    in a Trace so that claims about which channel reports a failure and how
    many external commands run can be stated.
-/

namespace P4

/-- Python exceptions reachable in this layer of the code. -/
inductive PyError where
  | valueError
  | typeError
  | keyError
  deriving DecidableEq

/-- Value of a captured stream as the Python code leaves it: the raw (still
undecoded) bytes object when the stream tested falsy, a decoded str after
processing, or None after the explicit normalization of stderr. -/
inductive StreamVal where
  | bytesVal (b : String)
  | strVal (s : String)
  | noneVal
  deriving DecidableEq

/-- Python truthiness of a stream value: None is falsy, bytes and str are
truthy exactly when non-empty. -/
def StreamVal.truthy : StreamVal → Bool
  | StreamVal.bytesVal b => b != ""
  | StreamVal.strVal s => s != ""
  | StreamVal.noneVal => false

/-- Python comparison value == of a stream value with the empty str: only a
str compares equal to a str (b-empty-bytes == empty-str is False in Python 3,
and None == empty-str is False). -/
def pyEqEmptyStr : StreamVal → Bool
  | StreamVal.bytesVal _ => false
  | StreamVal.strVal s => s == ""
  | StreamVal.noneVal => false

/-- Whitespace characters of Python str.strip with no argument. -/
def isPySpace (c : Char) : Bool :=
  c == ' ' || c == '\t' || c == '\n' || c == '\x0d' || c == '\x0b' || c == '\x0c'

/-- Dropping leading and trailing whitespace from a character list. -/
def stripChars (l : List Char) : List Char :=
  ((l.dropWhile isPySpace).reverse.dropWhile isPySpace).reverse

/-- Python str.strip with no argument: drop leading and trailing whitespace. -/
def pyStrip (s : String) : String :=
  ⟨stripChars s.data⟩

/-- Splitting a character list at every occurrence of a separator character;
the groups never contain the separator and empty groups are kept, matching
Python str.split with an explicit separator. -/
def splitChars (sep : Char) : List Char → List (List Char)
  | [] => [[]]
  | c :: rest =>
    let r := splitChars sep rest
    if c == sep then [] :: r
    else
      match r with
      | g :: gs => (c :: g) :: gs
      | [] => [[c]]

/-- Python line.split applied to one separator character. -/
def pySplit (sep : Char) (s : String) : List String :=
  (splitChars sep s.data).map (fun l => ⟨l⟩)

/-- Python s.startswith(pre) on two str values: a plain prefix test on the
character sequences. -/
def pyStartsWith (pre s : String) : Bool :=
  pre.data.isPrefixOf s.data

/-- Environment mappings and parsed config files: association lists with
Python-dict update semantics (dictSet below). -/
abbrev Config := List (String × String)

/-- Python dict assignment d[k] = v: replace the value in place if the key is
present, otherwise append the new binding. -/
def dictSet (d : Config) (k v : String) : Config :=
  if d.any (fun kv => kv.1 == k) then
    d.map (fun kv => if kv.1 == k then (k, v) else kv)
  else
    d ++ [(k, v)]

/-- Python dict.update: assign every binding of upd into base in order. -/
def dictUpdate (base upd : Config) : Config :=
  upd.foldl (fun acc kv => dictSet acc kv.1 kv.2) base

/-- Outcome of one subprocess: both captured streams (modelled post-decode as
text) and the numeric exit status, which the code never reads. -/
structure ProcOutcome where
  stdout : String
  stderr : String
  exitCode : Int
  deriving DecidableEq

/-- The filesystem as the code observes it: os.path.isfile, reading a config
file line by line, and the writable bit consulted by os.stat. -/
structure FS where
  isFile : List String → Bool
  readLines : List String → List String
  writable : List String → Bool

/-- Ambient process state the code reads: os.environ, the active view's file
name (may be None), the filesystem, and the external world's response to a
spawned shell command. -/
structure SysState where
  baseEnv : Config
  activeFile : Option (List String)
  fs : FS
  spawn : String → ProcOutcome

/-- One subprocess.Popen call: the shell command string, the working
directory, and the environment passed to the child. -/
structure SpawnReq where
  cmd : String
  cwd : List String
  env : Config
  deriving DecidableEq

/-- Observable effects of a run: subprocess spawns, _warn_user messages
(the warning channel), and plain print calls (the console log). -/
structure Trace where
  spawned : List SpawnReq
  warnings : List String
  prints : List String
  deriving DecidableEq

def Trace.empty : Trace := ⟨[], [], []⟩

instance : Append Trace :=
  ⟨fun a b => ⟨a.spawned ++ b.spawned, a.warnings ++ b.warnings, a.prints ++ b.prints⟩⟩

/-- Embedding of _warn_user: formats the message, sends it to the warning
channel (status message) and always also prints it. -/
def warnUser (message : String) : Trace :=
  ⟨[], ["P4 [warning]: " ++ message], ["P4 [warning]: " ++ message]⟩

/-- Trace of a bare print call. -/
def printTrace (message : String) : Trace := ⟨[], [], [message]⟩

/-- The three plugin settings read from P4.sublime-settings. -/
structure PSettings where
  p4AutoOpen : Bool
  p4AutoAdd : Bool
  p4WarningsEnabled : Bool

/-- Raw string form of a path, as view.file_name() would return it:
renderPath ["proj", "src", "a.txt"] is the string /proj/src/a.txt. -/
def renderPath (p : List String) : String :=
  p.foldl (fun acc c => acc ++ "/" ++ c) ""

/-- Embedding of _is_file_writeable: None is not writable, a path that is not
an existing file counts as writable, otherwise the stat writable bit. -/
def isFileWriteable (fs : FS) : Option (List String) → Bool
  | none => false
  | some p => if fs.isFile p then fs.writable p else true

/-- Loop body of _read_p4_config_values: var, value = line.split('=') binds
exactly two pieces, so a line whose split at every '=' does not have exactly
two parts raises ValueError; otherwise the dict gains the trimmed pair. -/
def readP4ConfigValuesAux (acc : Config) : List String → Except PyError Config
  | [] => Except.ok acc
  | line :: rest =>
    match pySplit '=' line with
    | [var, value] => readP4ConfigValuesAux (dictSet acc (pyStrip var) (pyStrip value)) rest
    | _ => Except.error PyError.valueError

/-- Embedding of _read_p4_config_values over the lines of the config file. -/
def readP4ConfigValues (lines : List String) : Except PyError Config :=
  readP4ConfigValuesAux [] lines

/-- Worker for _get_p4_config on the reversed path: peeling the head of the
reversed list is os.path.dirname, and the loop guard path != '/' is the
emptiness test, so the root directory itself is never examined. -/
def getP4ConfigRev (fs : FS) : List String → Except PyError (Option Config)
  | [] => Except.ok none
  | comp :: rest =>
    let dir := (comp :: rest).reverse
    if fs.isFile (dir ++ [".p4config"]) then
      Except.map some (readP4ConfigValues (fs.readLines (dir ++ [".p4config"])))
    else
      getP4ConfigRev fs rest

/-- Embedding of _get_p4_config: walk from the given path upward through its
ancestors looking for a .p4config file; parse and return the first one found,
or None when the walk reaches the root. -/
def getP4Config (fs : FS) (path : List String) : Except PyError (Option Config) :=
  getP4ConfigRev fs path.reverse

/-- Stream processing tail of _run_p4_command (its lines after communicate):
a falsy (empty) stream is left as the raw bytes object; non-empty stdout is
decoded and trimmed; non-empty stderr is decoded and trimmed, then an
all-whitespace stderr is normalized to None.  The exit status is ignored. -/
def processStreams (out : ProcOutcome) : StreamVal × StreamVal :=
  let result :=
    if out.stdout == "" then StreamVal.bytesVal out.stdout
    else StreamVal.strVal (pyStrip out.stdout)
  let err :=
    if out.stderr == "" then StreamVal.bytesVal out.stderr
    else if pyStrip out.stderr == "" then StreamVal.noneVal
    else StreamVal.strVal (pyStrip out.stderr)
  (result, err)

/-- Output of one _run_p4_command call: the returned pair or the exception,
the effect trace, and the ambient state afterwards (the code assigns to a
copy of os.environ, never to os.environ itself). -/
structure RunOutput where
  ret : Except PyError (StreamVal × StreamVal)
  trace : Trace
  finalState : SysState

/-- Embedding of _run_p4_command.  Faithful crash behavior: with no active
file, os.path.dirname None raises TypeError; a malformed config file raises
ValueError out of the parse; when no .p4config is found, _get_p4_config
returns None and env.update None raises TypeError — in each of these cases no
subprocess is spawned.  Otherwise the child runs with cwd the parent of the
active file and the environment a copy of os.environ updated with the
resolved config, and the streams are processed by processStreams, warning and
logging when the processed stderr is truthy. -/
def runP4Command (st : SysState) (cmd : String) : RunOutput :=
  match st.activeFile with
  | none => ⟨Except.error PyError.typeError, Trace.empty, st⟩
  | some fp =>
    let folder := fp.dropLast
    match getP4Config st.fs fp with
    | Except.error e => ⟨Except.error e, Trace.empty, st⟩
    | Except.ok none => ⟨Except.error PyError.typeError, Trace.empty, st⟩
    | Except.ok (some cfg) =>
      let env := dictUpdate st.baseEnv cfg
      let out := st.spawn cmd
      let rv := processStreams out
      let effects :=
        match rv.2 with
        | StreamVal.strVal e => warnUser e ++ printTrace (cmd ++ " failed: " ++ e)
        | _ => Trace.empty
      ⟨Except.ok rv, ⟨[⟨cmd, folder, env⟩], [], []⟩ ++ effects, st⟩

/-- The fixed introspection command of _get_client_root_directory. -/
def clientRootInfoCmd : String := "p4 -F %clientRoot% -z tag info"

/-- Embedding of _get_client_root_directory: run the introspection command;
on a truthy error or a result equal to the empty str, return None, otherwise
return the result value as is (note that an empty stdout yields the raw empty
bytes object, which is not equal to the empty str and is passed through). -/
def getClientRootDirectory (st : SysState) : Except PyError (Option StreamVal) × Trace :=
  let r := runP4Command st clientRootInfoCmd
  match r.ret with
  | Except.error e => (Except.error e, r.trace)
  | Except.ok rv =>
    if rv.2.truthy || pyEqEmptyStr rv.1 then (Except.ok none, r.trace)
    else (Except.ok (some rv.1), r.trace)

/-- Embedding of _is_file_in_depot: file_path.startswith(client_root) is a
plain string-prefix test and raises TypeError when the looked-up root is None
or a bytes object. -/
def isFileInDepot (st : SysState) (fp : List String) : Except PyError Bool × Trace :=
  let r := getClientRootDirectory st
  match r.1 with
  | Except.error e => (Except.error e, r.2)
  | Except.ok none => (Except.error PyError.typeError, r.2)
  | Except.ok (some (StreamVal.bytesVal _)) => (Except.error PyError.typeError, r.2)
  | Except.ok (some StreamVal.noneVal) => (Except.error PyError.typeError, r.2)
  | Except.ok (some (StreamVal.strVal root)) =>
    (Except.ok (pyStartsWith root (renderPath fp)), r.2)

/-- Embedding of _p4_open: bail out on a None path or when auto-open is off;
a writable file and a file outside the client root are each only reported
with print, and the edit command is run unconditionally afterwards. -/
def p4Open (st : SysState) (s : PSettings) (filePath : Option (List String)) :
    Except PyError Unit × Trace :=
  match filePath with
  | none => (Except.ok (), Trace.empty)
  | some fp =>
    if s.p4AutoOpen = false then (Except.ok (), Trace.empty)
    else
      let t1 := if isFileWriteable st.fs (some fp) then printTrace "File is already writable." else Trace.empty
      let m := isFileInDepot st fp
      match m.1 with
      | Except.error e => (Except.error e, t1 ++ m.2)
      | Except.ok b =>
        let t3 := if b = false then printTrace "File is not under the client root." else Trace.empty
        let r := runP4Command st ("p4 edit \"" ++ renderPath fp ++ "\"")
        (Except.map (fun _ => ()) r.ret, t1 ++ m.2 ++ t3 ++ r.trace)

/-- Embedding of P4AutoAdd.on_post_save: do nothing when auto-add is off or
the file is not in the depot, otherwise run the add command. -/
def p4AutoAddRun (st : SysState) (s : PSettings) (fp : List String) :
    Except PyError Unit × Trace :=
  if s.p4AutoAdd = false then (Except.ok (), Trace.empty)
  else
    let m := isFileInDepot st fp
    match m.1 with
    | Except.error e => (Except.error e, m.2)
    | Except.ok false => (Except.ok (), m.2)
    | Except.ok true =>
      let r := runP4Command st ("p4 add \"" ++ renderPath fp ++ "\"")
      (Except.map (fun _ => ()) r.ret, m.2 ++ r.trace)

/-- Embedding of P4AddCommand.run: run the add command when the file is in
the depot, otherwise report through the warning channel. -/
def p4AddRun (st : SysState) (fp : List String) : Except PyError Unit × Trace :=
  let m := isFileInDepot st fp
  match m.1 with
  | Except.error e => (Except.error e, m.2)
  | Except.ok true =>
    let r := runP4Command st ("p4 add \"" ++ renderPath fp ++ "\"")
    (Except.map (fun _ => ()) r.ret, m.2 ++ r.trace)
  | Except.ok false => (Except.ok (), m.2 ++ warnUser "File is not under the client root.")

/-- Embedding of P4DeleteCommand.run.  In the in-depot branch the command
string is built with a named replacement field but a positional format
argument, which raises KeyError before any delete command can run; outside
the depot the failure goes to the warning channel. -/
def p4DeleteRun (st : SysState) (fp : List String) : Except PyError Unit × Trace :=
  let m := isFileInDepot st fp
  match m.1 with
  | Except.error e => (Except.error e, m.2)
  | Except.ok true => (Except.error PyError.keyError, m.2)
  | Except.ok false => (Except.ok (), m.2 ++ warnUser "File is not under the client root.")

/-- Embedding of P4RevertCommand.run_: the same named-field format slip as in
delete raises KeyError in the in-depot branch (which also makes its later
reference to the undefined name error unreachable); outside the depot the
failure goes to the warning channel. -/
def p4RevertRun (st : SysState) (fp : List String) : Except PyError Unit × Trace :=
  let m := isFileInDepot st fp
  match m.1 with
  | Except.error e => (Except.error e, m.2)
  | Except.ok true => (Except.error PyError.keyError, m.2)
  | Except.ok false => (Except.ok (), m.2 ++ warnUser "File is not under the client root.")

/-- Embedding of P4DiffCommand.run: warn and stop when the file is not in the
depot, otherwise run the diff command (the scratch view it may open is UI and
outside the trace). -/
def p4DiffRun (st : SysState) (fp : List String) : Except PyError Unit × Trace :=
  let m := isFileInDepot st fp
  match m.1 with
  | Except.error e => (Except.error e, m.2)
  | Except.ok false => (Except.ok (), m.2 ++ warnUser "File is not under the client root.")
  | Except.ok true =>
    let r := runP4Command st ("p4 diff -dU \"" ++ renderPath fp ++ "\"")
    (Except.map (fun _ => ()) r.ret, m.2 ++ r.trace)

/-- Embedding of P4DiffAllCommand.run. -/
def p4DiffAllRun (st : SysState) (fp : List String) : Except PyError Unit × Trace :=
  let m := isFileInDepot st fp
  match m.1 with
  | Except.error e => (Except.error e, m.2)
  | Except.ok false => (Except.ok (), m.2 ++ warnUser "File is not under the client root.")
  | Except.ok true =>
    let r := runP4Command st "p4 diff -dU"
    (Except.map (fun _ => ()) r.ret, m.2 ++ r.trace)

/-- Embedding of P4OpenedCommand.run. -/
def p4OpenedRun (st : SysState) : Except PyError Unit × Trace :=
  let r := runP4Command st "p4 opened"
  (Except.map (fun _ => ()) r.ret, r.trace)

/-- Embedding of P4LogoutCommand.run: the surrounding try swallows only
ValueError. -/
def p4LogoutRun (st : SysState) : Except PyError Unit × Trace :=
  let r := runP4Command st "p4 set P4PASSWD="
  match r.ret with
  | Except.error PyError.valueError => (Except.ok (), r.trace)
  | Except.error e => (Except.error e, r.trace)
  | Except.ok _ => (Except.ok (), r.trace)

/-- Embedding of P4LoginCommand.on_done: a logout invocation followed by a
credential-set invocation inside a try that swallows only ValueError (so a
ValueError from the first run skips the second). -/
def p4LoginOnDone (st : SysState) (password : String) : Except PyError Unit × Trace :=
  let r1 := runP4Command st "p4 logout"
  match r1.ret with
  | Except.error PyError.valueError => (Except.ok (), r1.trace)
  | Except.error e => (Except.error e, r1.trace)
  | Except.ok _ =>
    let r2 := runP4Command st ("p4 set P4PASSWD=" ++ password)
    match r2.ret with
    | Except.error PyError.valueError => (Except.ok (), r1.trace ++ r2.trace)
    | Except.error e => (Except.error e, r1.trace ++ r2.trace)
    | Except.ok _ => (Except.ok (), r1.trace ++ r2.trace)

/-- Whether an Except value carries a success, mirroring the absence of a
Python exception. -/
def exceptIsOk {α : Type} : Except PyError α → Bool
  | Except.ok _ => true
  | Except.error _ => false

/-- Joining string pieces back with the separator character = between them;
used to phrase the split-at-the-first-separator reading of the spec. -/
def joinEq : List String → String
  | [] => ""
  | [x] => x
  | x :: y :: rest => x ++ "=" ++ joinEq (y :: rest)

/-- Modelled from the spec (parsing rule of the Config Resolver, section
4.1): split each line at the FIRST =, the left part trimmed is the key, the
right part trimmed is the value.  This is the comparator for claim C3; the
code's own parser is readP4ConfigValues above. -/
def specParseLine (l : String) : String × String :=
  let parts := pySplit '=' l
  (pyStrip (parts.headD ""), pyStrip (joinEq parts.tail))

/-- Modelled from the spec: the mapping obtained by applying specParseLine to
every line in order. -/
def specParseConfig (lines : List String) : Config :=
  lines.foldl (fun acc l => dictSet acc (specParseLine l).1 (specParseLine l).2) []

/-- The invariant asserted by the spec for each CommandResult component:
absent, or a non-empty string that equals its own trimmed form. -/
def absentOrNonemptyTrimmedStr : StreamVal → Bool
  | StreamVal.noneVal => true
  | StreamVal.strVal s => s != "" && pyStrip s == s
  | StreamVal.bytesVal _ => false

/-- A filesystem with no files at all. -/
def fsNone : FS := ⟨fun _ => false, fun _ => [], fun _ => true⟩

/-- Scenario for C1: active file /tmp/a.txt, no .p4config anywhere in its
ancestry. -/
def stC1 : SysState :=
  ⟨[("PATH", "/usr/bin")], some ["tmp", "a.txt"], fsNone, fun _ => ⟨"", "", 0⟩⟩

/-- Scenario for C4: active file /tmp/a.txt with a valid config at
/tmp/.p4config, while the client root reported by the introspection command
is /proj, so the file is not under the client root. -/
def fsC4 : FS :=
  ⟨fun q => q == ["tmp", ".p4config"], fun _ => ["P4PORT=x:1666"], fun _ => true⟩

/-- System state for the C4 scenario. -/
def stC4 : SysState :=
  ⟨[("PATH", "/usr/bin")], some ["tmp", "a.txt"], fsC4,
   fun c => if c == clientRootInfoCmd then ⟨"/proj", "", 0⟩ else ⟨"", "", 0⟩⟩

/-- Scenario for C5, first half: every spawned command reports an error on
stderr, so the client-root introspection fails. -/
def stC5a : SysState :=
  ⟨[], some ["proj", "x"],
   ⟨fun q => q == ["proj", ".p4config"], fun _ => ["P4PORT=p:1"], fun _ => true⟩,
   fun _ => ⟨"", "some error", 1⟩⟩

/-- Scenario for C5, second half: every spawned command succeeds silently
with empty stdout, so the client-root introspection returns empty output. -/
def stC5b : SysState :=
  ⟨[], some ["proj", "x"],
   ⟨fun q => q == ["proj", ".p4config"], fun _ => ["P4PORT=p:1"], fun _ => true⟩,
   fun _ => ⟨"", "", 0⟩⟩

/-- Scenario for C6: the active view has no file name. -/
def stC6 : SysState :=
  ⟨[("PATH", "/usr/bin")], none, fsNone, fun _ => ⟨"", "", 0⟩⟩

/-- Scenario for C7: config files both at /a/.p4config (distant) and at
/a/b/.p4config (nearest) on the ancestry of /a/b/c.txt, with different
contents. -/
def fsC7 : FS :=
  ⟨fun q => q == ["a", ".p4config"] || q == ["a", "b", ".p4config"],
   fun q => if q == ["a", "b", ".p4config"] then ["P4PORT=near:1666"] else ["P4PORT=far:1666"],
   fun _ => true⟩

/-- Scenario for C8 and C10: active file /proj/a.txt with a valid config at
/proj/.p4config, and the introspection command reporting client root /proj,
so the file is inside the depot. -/
def stC8 : SysState :=
  ⟨[], some ["proj", "a.txt"],
   ⟨fun q => q == ["proj", ".p4config"], fun _ => ["P4CLIENT=dev"], fun _ => true⟩,
   fun c => if c == clientRootInfoCmd then ⟨"/proj\n", "", 0⟩ else ⟨"", "", 0⟩⟩

/-- Scenario with a malformed config file (a line without =): every command
execution raises ValueError out of the parse before spawning anything. -/
def stC8bad : SysState :=
  ⟨[], some ["x", "f"],
   ⟨fun q => q == ["x", ".p4config"], fun _ => ["garbage"], fun _ => true⟩,
   fun _ => ⟨"", "", 0⟩⟩

/-! Theorems.  First the bookkeeping lemmas about traces and the shape of a
single command execution, then one theorem per claim. -/

@[simp] theorem pyStrip_empty : pyStrip "" = "" := rfl

@[simp] theorem Trace.spawned_append (a b : Trace) :
    (a ++ b).spawned = a.spawned ++ b.spawned := rfl

@[simp] theorem Trace.warnings_append (a b : Trace) :
    (a ++ b).warnings = a.warnings ++ b.warnings := rfl

@[simp] theorem Trace.prints_append (a b : Trace) :
    (a ++ b).prints = a.prints ++ b.prints := rfl

@[simp] theorem Trace.empty_append (a : Trace) : Trace.empty ++ a = a := rfl

@[simp] theorem Trace.append_empty (a : Trace) : a ++ Trace.empty = a := by
  cases a with
  | mk s w p =>
    show Trace.mk (s ++ []) (w ++ []) (p ++ []) = Trace.mk s w p
    simp

@[simp] theorem Trace.spawned_empty : Trace.empty.spawned = [] := rfl

@[simp] theorem warnUser_spawned (m : String) : (warnUser m).spawned = [] := rfl

@[simp] theorem printTrace_spawned (m : String) : (printTrace m).spawned = [] := rfl

/-- Shape of one command execution: either it raises before Popen and spawns
nothing, or it spawns exactly one subprocess, running the given command, and
returns a pair. -/
theorem runP4Command_shape (st : SysState) (cmd : String) :
    ((runP4Command st cmd).trace.spawned = [] ∧
       ∃ e, (runP4Command st cmd).ret = Except.error e) ∨
    (∃ req : SpawnReq, (runP4Command st cmd).trace.spawned = [req] ∧ req.cmd = cmd ∧
       ∃ rv, (runP4Command st cmd).ret = Except.ok rv) := by
  unfold runP4Command
  split
  · exact Or.inl ⟨rfl, PyError.typeError, rfl⟩
  · split
    · exact Or.inl ⟨rfl, _, rfl⟩
    · exact Or.inl ⟨rfl, PyError.typeError, rfl⟩
    · rename_i fp hactive hexc cfg hcfg
      dsimp only
      refine Or.inr ⟨⟨cmd, fp.dropLast, dictUpdate st.baseEnv cfg⟩, ?_, rfl, _, rfl⟩
      split <;> rfl

/-- One command execution spawns at most one subprocess. -/
theorem runP4Command_spawned_length (st : SysState) (cmd : String) :
    (runP4Command st cmd).trace.spawned.length ≤ 1 := by
  rcases runP4Command_shape st cmd with ⟨h, _⟩ | ⟨req, h, _⟩ <;> simp [h]

/-- The trace of the depot-root lookup is exactly the trace of its one
introspection command execution. -/
theorem getClientRootDirectory_trace (st : SysState) :
    (getClientRootDirectory st).2 = (runP4Command st clientRootInfoCmd).trace := by
  unfold getClientRootDirectory
  dsimp only
  split
  · rfl
  · split <;> rfl

/-- The trace of the depot-membership check is exactly the trace of its one
introspection command execution. -/
theorem isFileInDepot_trace (st : SysState) (fp : List String) :
    (isFileInDepot st fp).2 = (runP4Command st clientRootInfoCmd).trace := by
  have h : (isFileInDepot st fp).2 = (getClientRootDirectory st).2 := by
    unfold isFileInDepot
    dsimp only
    split <;> rfl
  rw [h, getClientRootDirectory_trace]

/-- The depot-membership check spawns at most one subprocess. -/
theorem isFileInDepot_spawned_length (st : SysState) (fp : List String) :
    (isFileInDepot st fp).2.spawned.length ≤ 1 := by
  rw [isFileInDepot_trace]
  exact runP4Command_spawned_length st clientRootInfoCmd

/-- C1: the claim says a run with no .p4config found still completes and
spawns the subprocess with the unmodified base environment; on the code,
_get_p4_config returns None and env.update None raises TypeError before
Popen, so the run raises and nothing is spawned. -/
theorem c1_no_config_raises_before_spawn :
    getP4Config stC1.fs ["tmp", "a.txt"] = Except.ok none ∧
    (runP4Command stC1 "p4 opened").ret = Except.error PyError.typeError ∧
    (runP4Command stC1 "p4 opened").trace.spawned = [] :=
  ⟨rfl, rfl, rfl⟩

/-- C2: every completed command execution returns the processed streams of
its subprocess; that result is classified error-present exactly when the
decoded and trimmed stderr text is non-empty, and the stream processing does
not depend on the numeric exit status. -/
theorem c2_error_iff_trimmed_stderr_nonempty :
    (∀ out : ProcOutcome,
      ((processStreams out).2.truthy = true ↔ pyStrip out.stderr ≠ "") ∧
      ∀ c : Int, processStreams ⟨out.stdout, out.stderr, c⟩ = processStreams out) ∧
    (∀ (st : SysState) (cmd : String),
      (∃ e, (runP4Command st cmd).ret = Except.error e) ∨
      (runP4Command st cmd).ret = Except.ok (processStreams (st.spawn cmd))) := by
  constructor
  · intro out
    refine ⟨?_, fun c => rfl⟩
    by_cases h : out.stderr = ""
    · simp [processStreams, h, StreamVal.truthy]
    · by_cases h2 : pyStrip out.stderr = ""
      · simp [processStreams, h, h2, StreamVal.truthy]
      · simp [processStreams, h, h2, StreamVal.truthy]
  · intro st cmd
    unfold runP4Command
    split
    · exact Or.inl ⟨_, rfl⟩
    · split
      · exact Or.inl ⟨_, rfl⟩
      · exact Or.inl ⟨_, rfl⟩
      · exact Or.inr rfl

/-- C5: the claim says a failing or empty client-root introspection makes
is_in_depot return false rather than crash; on the code the root lookup
yields None (error case) or the raw empty bytes value (empty-stdout case)
and file_path.startswith then raises TypeError in both cases. -/
theorem c5_failed_introspection_raises :
    (getClientRootDirectory stC5a).1 = Except.ok none ∧
    (isFileInDepot stC5a ["proj", "x"]).1 = Except.error PyError.typeError ∧
    (getClientRootDirectory stC5b).1 = Except.ok (some (StreamVal.bytesVal "")) ∧
    (isFileInDepot stC5b ["proj", "x"]).1 = Except.error PyError.typeError :=
  ⟨rfl, rfl, rfl, rfl⟩

/-- C6: the claim says a null active file path must not crash the run and the
working directory falls back to the process default; on the code
os.path.dirname None raises TypeError immediately and nothing is spawned. -/
theorem c6_null_active_file_raises :
    (runP4Command stC6 "p4 opened").ret = Except.error PyError.typeError ∧
    (runP4Command stC6 "p4 opened").trace.spawned = [] :=
  ⟨rfl, rfl⟩

/-- C10: one command execution leaves the process-wide base environment
unchanged, and every subprocess it spawns receives a fresh copy of the base
environment overlaid with the resolved config overrides (working directory
the parent of the active file). -/
theorem c10_base_env_frame (st : SysState) (cmd : String) :
    (runP4Command st cmd).finalState.baseEnv = st.baseEnv ∧
    ∀ req ∈ (runP4Command st cmd).trace.spawned,
      ∃ fp cfg, st.activeFile = some fp ∧ getP4Config st.fs fp = Except.ok (some cfg) ∧
        req.env = dictUpdate st.baseEnv cfg ∧ req.cwd = fp.dropLast := by
  unfold runP4Command
  split
  · exact ⟨rfl, by intro req hreq; simp [Trace.empty] at hreq⟩
  · rename_i fp hfp
    split
    · exact ⟨rfl, by intro req hreq; simp [Trace.empty] at hreq⟩
    · exact ⟨rfl, by intro req hreq; simp [Trace.empty] at hreq⟩
    · rename_i cfg hcfg
      dsimp only
      refine ⟨rfl, ?_⟩
      intro req hreq
      refine ⟨fp, cfg, hfp, hcfg, ?_⟩
      have hone : req = ⟨cmd, fp.dropLast, dictUpdate st.baseEnv cfg⟩ := by
        revert hreq
        split <;> intro hreq <;> simpa using hreq
      rw [hone]
      exact ⟨rfl, rfl⟩

/-- The head of a dropWhile result never satisfies the predicate. -/
theorem dropWhile_head?_not (p : Char → Bool) (l : List Char) (c : Char)
    (h : (l.dropWhile p).head? = some c) : p c = false := by
  induction l with
  | nil => simp [List.dropWhile] at h
  | cons a t ih =>
    rw [List.dropWhile_cons] at h
    by_cases hp : p a
    · rw [if_pos hp] at h
      exact ih h
    · rw [if_neg hp] at h
      simp only [List.head?_cons, Option.some.injEq] at h
      subst h
      cases hpa : p a with
      | true => exact absurd hpa hp
      | false => rfl

/-- Stripping is right-dropping after left-dropping. -/
theorem stripChars_eq_rdrop (l : List Char) :
    stripChars l = List.rdropWhile isPySpace (l.dropWhile isPySpace) := rfl

/-- Stripping a character list twice is the same as stripping it once. -/
theorem stripChars_idem (l : List Char) : stripChars (stripChars l) = stripChars l := by
  rw [stripChars_eq_rdrop, stripChars_eq_rdrop]
  have h1 : (List.rdropWhile isPySpace (l.dropWhile isPySpace)).dropWhile isPySpace
      = List.rdropWhile isPySpace (l.dropWhile isPySpace) := by
    rcases hc : List.rdropWhile isPySpace (l.dropWhile isPySpace) with _ | ⟨c, L2⟩
    · rfl
    · obtain ⟨t, ht⟩ := List.rdropWhile_prefix isPySpace (l.dropWhile isPySpace)
      rw [hc] at ht
      have hh : (l.dropWhile isPySpace).head? = some c := by
        rw [← ht]
        rfl
      have hnp : isPySpace c = false := dropWhile_head?_not isPySpace l c hh
      rw [List.dropWhile_cons, hnp]
      simp
  rw [h1, List.rdropWhile_idempotent]

/-- Python strip is idempotent. -/
theorem pyStrip_idem (s : String) : pyStrip (pyStrip s) = pyStrip s :=
  congrArg String.mk (stripChars_idem s.data)

/-- C9: the claim says each CommandResult component is absent or a non-empty
trimmed string, and that empty or whitespace-only stdout yields an absent
output; on the code a whitespace-only stdout yields the empty string and an
empty stream is returned as the raw empty bytes value, so the invariant
fails for both components. -/
theorem c9_counterexample :
    (processStreams ⟨"  ", "", 0⟩).1 = StreamVal.strVal "" ∧
    absentOrNonemptyTrimmedStr (processStreams ⟨"  ", "", 0⟩).1 = false ∧
    (processStreams ⟨"", "x", 0⟩).1 = StreamVal.bytesVal "" ∧
    absentOrNonemptyTrimmedStr (processStreams ⟨"", "x", 0⟩).1 = false ∧
    absentOrNonemptyTrimmedStr (processStreams ⟨"x", "", 0⟩).2 = false :=
  ⟨rfl, rfl, rfl, rfl, rfl⟩

/-- C9 amended: the error component is the raw empty bytes value for an empty
stderr, absent for a whitespace-only stderr, and otherwise the non-empty
trimmed text (for which the spec's trimmed-string invariant does hold); the
output component is the raw empty bytes value for an empty stdout and
otherwise the trimmed decoded text, which is the empty string, not an absent
value, when stdout was whitespace-only. -/
theorem c9_amended_stream_characterization (out : ProcOutcome) :
    ((out.stdout = "" ∧ (processStreams out).1 = StreamVal.bytesVal "") ∨
     (out.stdout ≠ "" ∧ (processStreams out).1 = StreamVal.strVal (pyStrip out.stdout))) ∧
    ((out.stderr = "" ∧ (processStreams out).2 = StreamVal.bytesVal "") ∨
     (out.stderr ≠ "" ∧ pyStrip out.stderr = "" ∧ (processStreams out).2 = StreamVal.noneVal) ∨
     (out.stderr ≠ "" ∧ pyStrip out.stderr ≠ "" ∧
       (processStreams out).2 = StreamVal.strVal (pyStrip out.stderr) ∧
       absentOrNonemptyTrimmedStr (processStreams out).2 = true)) := by
  constructor
  · by_cases h : out.stdout = ""
    · exact Or.inl ⟨h, by simp [processStreams, h]⟩
    · exact Or.inr ⟨h, by simp [processStreams, h]⟩
  · by_cases h : out.stderr = ""
    · exact Or.inl ⟨h, by simp [processStreams, h]⟩
    · by_cases h2 : pyStrip out.stderr = ""
      · exact Or.inr (Or.inl ⟨h, h2, by simp [processStreams, h, h2]⟩)
      · refine Or.inr (Or.inr ⟨h, h2, by simp [processStreams, h, h2], ?_⟩)
        have hidem := pyStrip_idem out.stderr
        simp [processStreams, h, h2, absentOrNonemptyTrimmedStr, hidem]

/-- Every line of a config whose lines each split at = into exactly two
pieces parses successfully into the spec-side mapping, whatever dict the
parse starts from. -/
theorem readAux_ok (lines : List String) : ∀ acc : Config,
    (∀ l ∈ lines, (pySplit '=' l).length = 2) →
    readP4ConfigValuesAux acc lines =
      Except.ok (lines.foldl
        (fun acc2 l => dictSet acc2 (specParseLine l).1 (specParseLine l).2) acc) := by
  induction lines with
  | nil => intro acc h; rfl
  | cons l rest ih =>
    intro acc h
    have hl : (pySplit '=' l).length = 2 := h l (by simp)
    rcases hsplit : pySplit '=' l with _ | ⟨a, _ | ⟨b, _ | ⟨c, t⟩⟩⟩
    · rw [hsplit] at hl; simp at hl
    · rw [hsplit] at hl; simp at hl
    · have hspec : specParseLine l = (pyStrip a, pyStrip b) := by
        simp [specParseLine, hsplit, joinEq]
      simp only [readP4ConfigValuesAux, hsplit, List.foldl_cons, hspec]
      exact ih _ (fun x hx => h x (by simp [hx]))
    · rw [hsplit] at hl; simp at hl

/-- A config containing any line that does not split at = into exactly two
pieces makes the whole parse raise, whatever dict it starts from. -/
theorem readAux_error (lines : List String) : ∀ acc : Config,
    (∃ l ∈ lines, (pySplit '=' l).length ≠ 2) →
    readP4ConfigValuesAux acc lines = Except.error PyError.valueError := by
  induction lines with
  | nil => intro acc h; simp at h
  | cons l rest ih =>
    intro acc h
    rcases hsplit : pySplit '=' l with _ | ⟨a, _ | ⟨b, _ | ⟨c, t⟩⟩⟩
    · simp only [readP4ConfigValuesAux, hsplit]
    · simp only [readP4ConfigValuesAux, hsplit]
    · simp only [readP4ConfigValuesAux, hsplit]
      apply ih
      rcases h with ⟨x, hx, hlen⟩
      rcases List.mem_cons.mp hx with rfl | hx2
      · rw [hsplit] at hlen; simp at hlen
      · exact ⟨x, hx2, hlen⟩
    · simp only [readP4ConfigValuesAux, hsplit]

/-- C3: the claim says a line may contain = inside the value because the
split happens at the first =; on the code line.split is an unbounded split
unpacked into exactly two names, so the two-separator line A=b=c raises
ValueError instead of mapping A to b=c. -/
theorem c3_counterexample :
    readP4ConfigValues ["A=b=c"] = Except.error PyError.valueError ∧
    readP4ConfigValues ["A=b=c"] ≠ Except.ok [("A", "b=c")] :=
  ⟨rfl, fun h => Except.noConfusion h⟩

/-- C3 amended: a config file parses, into the mapping sending each line's
trimmed left part to its trimmed right part, exactly when every line contains
exactly one =; a line with no = — or with more than one — raises a parse
failure for the whole file rather than being skipped. -/
theorem c3_exactly_one_separator (lines : List String) :
    ((∀ l ∈ lines, (pySplit '=' l).length = 2) →
       readP4ConfigValues lines = Except.ok (specParseConfig lines)) ∧
    ((∃ l ∈ lines, (pySplit '=' l).length ≠ 2) →
       readP4ConfigValues lines = Except.error PyError.valueError) :=
  ⟨fun h => readAux_ok lines [] h, fun h => readAux_error lines [] h⟩

/-- Witness for C3 amended: a well-formed two-line config parses to the
spec-side mapping, and a file with a separator-free line raises. -/
theorem c3_exactly_one_separator_witness :
    readP4ConfigValues ["P4PORT = x:1666 ", "P4CLIENT=dev"] =
      Except.ok (specParseConfig ["P4PORT = x:1666 ", "P4CLIENT=dev"]) ∧
    readP4ConfigValues ["P4PORT=x", "NOEQ"] = Except.error PyError.valueError :=
  ⟨(c3_exactly_one_separator ["P4PORT = x:1666 ", "P4CLIENT=dev"]).1 (by decide),
   (c3_exactly_one_separator ["P4PORT=x", "NOEQ"]).2 ⟨"NOEQ", by simp, by decide⟩⟩

/-- The upward walk passes over every level, from the starting point down to
directory dRev (reversed), whose directory offers no config file. -/
theorem getP4ConfigRev_skip (fs : FS) (dRev : List String) :
    ∀ r : List String,
    (∀ r1 r2 : List String, r = r1 ++ r2 → r2 ≠ [] →
        fs.isFile ((r2 ++ dRev).reverse ++ [".p4config"]) = false) →
    getP4ConfigRev fs (r ++ dRev) = getP4ConfigRev fs dRev := by
  intro r
  induction r with
  | nil => intro h; rfl
  | cons a rest ih =>
    intro h
    have hhead : fs.isFile ((a :: (rest ++ dRev)).reverse ++ [".p4config"]) = false :=
      h [] (a :: rest) rfl (by simp)
    show getP4ConfigRev fs (a :: (rest ++ dRev)) = getP4ConfigRev fs dRev
    simp only [getP4ConfigRev, hhead]
    exact ih (fun r1 r2 hr hne => h (a :: r1) r2 (by rw [hr]; rfl) hne)

/-- C7: resolve_config returns the nearest ancestor's parsed config file.
The starting file path is d ++ t with d a non-root ancestor directory
holding a config file; hmiss says no level strictly below d on the way to
the file — including the file path itself, which names a file and therefore
has no .p4config child — offers one, while ancestors above d are left
unconstrained, so when several configs exist on the path to the root the
nearest one is returned, never a more distant one. -/
theorem c7_nearest_ancestor_wins (fs : FS) (d t : List String)
    (hd : d ≠ []) (_ht : t ≠ [])
    (hcfg : fs.isFile (d ++ [".p4config"]) = true)
    (hmiss : ∀ s u : List String, t = s ++ u → s ≠ [] →
        fs.isFile ((d ++ s) ++ [".p4config"]) = false) :
    getP4Config fs (d ++ t) =
      Except.map some (readP4ConfigValues (fs.readLines (d ++ [".p4config"]))) := by
  unfold getP4Config
  rw [List.reverse_append]
  have hcond : ∀ r1 r2 : List String, t.reverse = r1 ++ r2 → r2 ≠ [] →
      fs.isFile ((r2 ++ d.reverse).reverse ++ [".p4config"]) = false := by
    intro r1 r2 hr hne
    have hrev : (r2 ++ d.reverse).reverse = d ++ r2.reverse := by
      rw [List.reverse_append, List.reverse_reverse]
    rw [hrev]
    have ht2 : t = r2.reverse ++ r1.reverse := by
      have h0 := congrArg List.reverse hr
      rw [List.reverse_reverse, List.reverse_append] at h0
      exact h0
    have hs : r2.reverse ≠ [] := by
      intro hnil
      apply hne
      have h0 := congrArg List.reverse hnil
      rw [List.reverse_reverse] at h0
      simpa using h0
    exact hmiss r2.reverse r1.reverse ht2 hs
  rw [getP4ConfigRev_skip fs d.reverse t.reverse hcond]
  rcases hdr : d.reverse with _ | ⟨a, rest⟩
  · exfalso
    apply hd
    have h0 := congrArg List.reverse hdr
    simpa using h0
  · have hback : (a :: rest).reverse = d := by
      rw [← hdr, List.reverse_reverse]
    simp [getP4ConfigRev, hback, hcfg]

/-- Witness for C7: two configs on the ancestry of /a/b/c.txt, at /a (more
distant) and at /a/b (nearest); resolution returns the nearest one. -/
theorem c7_nearest_ancestor_wins_witness :
    getP4Config fsC7 (["a", "b"] ++ ["c.txt"]) =
      Except.map some (readP4ConfigValues (fsC7.readLines (["a", "b"] ++ [".p4config"]))) ∧
    getP4Config fsC7 ["a", "b", "c.txt"] = Except.ok (some [("P4PORT", "near:1666")]) :=
  ⟨c7_nearest_ancestor_wins fsC7 ["a", "b"] ["c.txt"] (by decide) (by decide) (by decide)
      (fun s u hsu hns => by
        have hlen : 1 ≤ s.length := by
          cases s with
          | nil => exact absurd rfl hns
          | cons x xs => simp
        show (((["a", "b"] ++ s) ++ [".p4config"]) == ["a", ".p4config"]
            || ((["a", "b"] ++ s) ++ [".p4config"]) == ["a", "b", ".p4config"]) = false
        rw [Bool.or_eq_false_iff]
        constructor <;> refine beq_eq_false_iff_ne.mpr (fun heq => ?_) <;>
          (have hl := congrArg List.length heq;
           simp only [List.length_append, List.length_cons, List.length_nil] at hl;
           omega)),
   rfl⟩

/-- C4: the claim says every failed precondition is reported through the
warning channel with the action not attempted, open-for-edit included; on
the code, _p4_open only prints the not-under-client-root diagnostic to the
console, emits no warning, and still spawns the edit command. -/
theorem c4_counterexample :
    (isFileInDepot stC4 ["tmp", "a.txt"]).1 = Except.ok false ∧
    ((p4Open stC4 ⟨true, true, true⟩ (some ["tmp", "a.txt"])).2.spawned.map
        (fun r => r.cmd)) = [clientRootInfoCmd, "p4 edit \"/tmp/a.txt\""] ∧
    (p4Open stC4 ⟨true, true, true⟩ (some ["tmp", "a.txt"])).2.warnings = [] ∧
    "File is not under the client root." ∈
      (p4Open stC4 ⟨true, true, true⟩ (some ["tmp", "a.txt"])).2.prints :=
  ⟨rfl, by decide, by decide, by decide⟩

/-- C4 amended: when the depot-membership precondition fails, delete and add
warn through the warning channel and do not run their action command (their
membership test has already run the one introspection command); open-for-edit
instead only prints the diagnostic and runs the edit command regardless. -/
theorem c4_amended_warning_discipline (st : SysState) (fp : List String) (s : PSettings)
    (hs : s.p4AutoOpen = true)
    (h : (isFileInDepot st fp).1 = Except.ok false) :
    p4DeleteRun st fp =
      (Except.ok (), (isFileInDepot st fp).2 ++ warnUser "File is not under the client root.") ∧
    p4AddRun st fp =
      (Except.ok (), (isFileInDepot st fp).2 ++ warnUser "File is not under the client root.") ∧
    p4Open st s (some fp) =
      (Except.map (fun _ => ()) (runP4Command st ("p4 edit \"" ++ renderPath fp ++ "\"")).ret,
        (if isFileWriteable st.fs (some fp) then printTrace "File is already writable."
          else Trace.empty)
          ++ (isFileInDepot st fp).2 ++ printTrace "File is not under the client root."
          ++ (runP4Command st ("p4 edit \"" ++ renderPath fp ++ "\"")).trace) := by
  refine ⟨?_, ?_, ?_⟩
  · unfold p4DeleteRun
    dsimp only
    rw [h]
  · unfold p4AddRun
    dsimp only
    rw [h]
  · unfold p4Open
    dsimp only
    rw [hs, h]
    simp

/-- Witness for C4 amended: in the concrete not-under-client-root scenario,
delete spawns nothing beyond the membership introspection and warns. -/
theorem c4_amended_warning_discipline_witness :
    (isFileInDepot stC4 ["tmp", "a.txt"]).1 = Except.ok false ∧
    p4DeleteRun stC4 ["tmp", "a.txt"] =
      (Except.ok (), (isFileInDepot stC4 ["tmp", "a.txt"]).2 ++
        warnUser "File is not under the client root.") :=
  ⟨rfl, (c4_amended_warning_discipline stC4 ["tmp", "a.txt"] ⟨true, true, true⟩ rfl rfl).1⟩

/-- A conditional diagnostic print spawns nothing. -/
theorem spawned_ite_print (c : Prop) [Decidable c] (msg : String) :
    (if c then printTrace msg else Trace.empty).spawned = [] := by
  split <;> rfl

/-- The open-for-edit action spawns at most two subprocesses. -/
theorem p4Open_spawned_le (st : SysState) (s : PSettings) (fp : List String) :
    (p4Open st s (some fp)).2.spawned.length ≤ 2 := by
  unfold p4Open
  dsimp only
  split <;> (try dsimp only)
  · simp
  · split
    · rename_i e heq
      simp only [Trace.spawned_append, List.length_append, spawned_ite_print]
      have h1 := isFileInDepot_spawned_length st fp
      simp only [List.length_nil]
      omega
    · simp only [Trace.spawned_append, List.length_append, spawned_ite_print]
      have h1 := isFileInDepot_spawned_length st fp
      have h2 := runP4Command_spawned_length st ("p4 edit \"" ++ renderPath fp ++ "\"")
      simp only [List.length_nil]
      omega

/-- The add action spawns at most two subprocesses. -/
theorem p4AddRun_spawned_le (st : SysState) (fp : List String) :
    (p4AddRun st fp).2.spawned.length ≤ 2 := by
  unfold p4AddRun
  dsimp only
  have h1 := isFileInDepot_spawned_length st fp
  split <;> (try dsimp only)
  · omega
  · have h2 := runP4Command_spawned_length st ("p4 add \"" ++ renderPath fp ++ "\"")
    simp only [Trace.spawned_append, List.length_append]
    omega
  · simp only [Trace.spawned_append, List.length_append, warnUser_spawned, List.length_nil]
    omega

/-- The auto-add hook spawns at most two subprocesses. -/
theorem p4AutoAddRun_spawned_le (st : SysState) (s : PSettings) (fp : List String) :
    (p4AutoAddRun st s fp).2.spawned.length ≤ 2 := by
  unfold p4AutoAddRun
  dsimp only
  have h1 := isFileInDepot_spawned_length st fp
  split <;> (try dsimp only)
  · simp
  · split <;> (try dsimp only)
    · omega
    · omega
    · have h2 := runP4Command_spawned_length st ("p4 add \"" ++ renderPath fp ++ "\"")
      simp only [Trace.spawned_append, List.length_append]
      omega

/-- The delete action spawns at most two subprocesses (in fact at most the
one introspection command, because of the KeyError in its format call). -/
theorem p4DeleteRun_spawned_le (st : SysState) (fp : List String) :
    (p4DeleteRun st fp).2.spawned.length ≤ 2 := by
  unfold p4DeleteRun
  dsimp only
  have h1 := isFileInDepot_spawned_length st fp
  split <;> (try dsimp only)
  · omega
  · omega
  · simp only [Trace.spawned_append, List.length_append, warnUser_spawned, List.length_nil]
    omega

/-- The revert action spawns at most two subprocesses. -/
theorem p4RevertRun_spawned_le (st : SysState) (fp : List String) :
    (p4RevertRun st fp).2.spawned.length ≤ 2 := by
  unfold p4RevertRun
  dsimp only
  have h1 := isFileInDepot_spawned_length st fp
  split <;> (try dsimp only)
  · omega
  · omega
  · simp only [Trace.spawned_append, List.length_append, warnUser_spawned, List.length_nil]
    omega

/-- The single-file diff action spawns at most two subprocesses. -/
theorem p4DiffRun_spawned_le (st : SysState) (fp : List String) :
    (p4DiffRun st fp).2.spawned.length ≤ 2 := by
  unfold p4DiffRun
  dsimp only
  have h1 := isFileInDepot_spawned_length st fp
  split <;> (try dsimp only)
  · omega
  · simp only [Trace.spawned_append, List.length_append, warnUser_spawned, List.length_nil]
    omega
  · have h2 := runP4Command_spawned_length st ("p4 diff -dU \"" ++ renderPath fp ++ "\"")
    simp only [Trace.spawned_append, List.length_append]
    omega

/-- The whole-workspace diff action spawns at most two subprocesses. -/
theorem p4DiffAllRun_spawned_le (st : SysState) (fp : List String) :
    (p4DiffAllRun st fp).2.spawned.length ≤ 2 := by
  unfold p4DiffAllRun
  dsimp only
  have h1 := isFileInDepot_spawned_length st fp
  split <;> (try dsimp only)
  · omega
  · simp only [Trace.spawned_append, List.length_append, warnUser_spawned, List.length_nil]
    omega
  · have h2 := runP4Command_spawned_length st "p4 diff -dU"
    simp only [Trace.spawned_append, List.length_append]
    omega

/-- The list-opened action spawns at most one subprocess. -/
theorem p4OpenedRun_spawned_le (st : SysState) :
    (p4OpenedRun st).2.spawned.length ≤ 1 := by
  unfold p4OpenedRun
  dsimp only
  exact runP4Command_spawned_length st "p4 opened"

/-- The logout action spawns at most one subprocess. -/
theorem p4LogoutRun_spawned_le (st : SysState) :
    (p4LogoutRun st).2.spawned.length ≤ 1 := by
  unfold p4LogoutRun
  dsimp only
  split <;> exact runP4Command_spawned_length st "p4 set P4PASSWD="

/-- The login flow's spawned commands, in order, form a prefix of the
logout-then-set-credential pair. -/
theorem p4LoginOnDone_cmds (st : SysState) (pw : String) :
    (p4LoginOnDone st pw).2.spawned.map (fun r => r.cmd) <+:
      ["p4 logout", "p4 set P4PASSWD=" ++ pw] := by
  unfold p4LoginOnDone
  dsimp only
  rcases runP4Command_shape st "p4 logout" with ⟨hsp1, e1, hret1⟩ | ⟨req1, hsp1, hcmd1, rv1, hret1⟩
  · rw [hret1]
    cases e1 <;> simp [hsp1]
  · rw [hret1]
    dsimp only
    rcases runP4Command_shape st ("p4 set P4PASSWD=" ++ pw) with
        ⟨hsp2, e2, hret2⟩ | ⟨req2, hsp2, hcmd2, rv2, hret2⟩
    · rw [hret2]
      cases e2 <;> simp [hsp1, hsp2, hcmd1]
    · rw [hret2]
      simp [hsp1, hsp2, hcmd1, hcmd2]

/-- When both of the login flow's command executions return without raising,
it spawns exactly the logout command followed by the credential-set command. -/
theorem p4LoginOnDone_cmds_exact (st : SysState) (pw : String)
    (h1 : exceptIsOk (runP4Command st "p4 logout").ret = true)
    (h2 : exceptIsOk (runP4Command st ("p4 set P4PASSWD=" ++ pw)).ret = true) :
    (p4LoginOnDone st pw).2.spawned.map (fun r => r.cmd) =
      ["p4 logout", "p4 set P4PASSWD=" ++ pw] := by
  unfold p4LoginOnDone
  dsimp only
  rcases runP4Command_shape st "p4 logout" with ⟨hsp1, e1, hret1⟩ | ⟨req1, hsp1, hcmd1, rv1, hret1⟩
  · rw [hret1] at h1
    simp [exceptIsOk] at h1
  · rw [hret1]
    dsimp only
    rcases runP4Command_shape st ("p4 set P4PASSWD=" ++ pw) with
        ⟨hsp2, e2, hret2⟩ | ⟨req2, hsp2, hcmd2, rv2, hret2⟩
    · rw [hret2] at h2
      simp [exceptIsOk] at h2
    · rw [hret2]
      simp [hsp1, hsp2, hcmd1, hcmd2]

/-- C8: the claim says every non-login action performs at most one external
invocation and the login flow exactly two; on the code the add action (file
in depot) runs the membership introspection command and then the add command
— two invocations — while a login whose config file is malformed raises
ValueError inside its first execution, is silenced by the except clause, and
spawns nothing. -/
theorem c8_counterexample :
    (p4AddRun stC8 ["proj", "a.txt"]).2.spawned.length = 2 ∧
    (p4LoginOnDone stC8bad "pw").1 = Except.ok () ∧
    (p4LoginOnDone stC8bad "pw").2.spawned.length = 0 :=
  ⟨by decide, rfl, by decide⟩

/-- C8 amended: every user-facing action performs at most two external
command invocations — at most one depot-membership introspection plus at
most one action command — and the login flow performs at most two, namely a
prefix of the logout-then-set pair in that order, with exactly the pair when
both of its executions complete without raising. -/
theorem c8_at_most_two_invocations (st : SysState) (s : PSettings) (fp : List String)
    (pw : String) :
    (p4Open st s (some fp)).2.spawned.length ≤ 2 ∧
    (p4AddRun st fp).2.spawned.length ≤ 2 ∧
    (p4AutoAddRun st s fp).2.spawned.length ≤ 2 ∧
    (p4DeleteRun st fp).2.spawned.length ≤ 2 ∧
    (p4RevertRun st fp).2.spawned.length ≤ 2 ∧
    (p4DiffRun st fp).2.spawned.length ≤ 2 ∧
    (p4DiffAllRun st fp).2.spawned.length ≤ 2 ∧
    (p4OpenedRun st).2.spawned.length ≤ 1 ∧
    (p4LogoutRun st).2.spawned.length ≤ 1 ∧
    ((p4LoginOnDone st pw).2.spawned.map (fun r => r.cmd) <+:
      ["p4 logout", "p4 set P4PASSWD=" ++ pw]) ∧
    ((exceptIsOk (runP4Command st "p4 logout").ret = true ∧
        exceptIsOk (runP4Command st ("p4 set P4PASSWD=" ++ pw)).ret = true) →
      (p4LoginOnDone st pw).2.spawned.map (fun r => r.cmd) =
        ["p4 logout", "p4 set P4PASSWD=" ++ pw]) :=
  ⟨p4Open_spawned_le st s fp, p4AddRun_spawned_le st fp, p4AutoAddRun_spawned_le st s fp,
   p4DeleteRun_spawned_le st fp, p4RevertRun_spawned_le st fp, p4DiffRun_spawned_le st fp,
   p4DiffAllRun_spawned_le st fp, p4OpenedRun_spawned_le st, p4LogoutRun_spawned_le st,
   p4LoginOnDone_cmds st pw, fun h => p4LoginOnDone_cmds_exact st pw h.1 h.2⟩

/-- Witness for C8 amended: in the concrete in-depot scenario both login
executions complete, and the flow spawns exactly the logout-then-set pair. -/
theorem c8_at_most_two_invocations_witness :
    (p4LoginOnDone stC8 "pw").2.spawned.map (fun r => r.cmd) =
      ["p4 logout", "p4 set P4PASSWD=" ++ "pw"] :=
  (c8_at_most_two_invocations stC8 ⟨true, true, true⟩ ["proj", "a.txt"]
    "pw").2.2.2.2.2.2.2.2.2.2 ⟨rfl, rfl⟩

/-- Witness for C10: in the concrete in-depot scenario, the one spawned
subprocess of a run received the base environment overlaid with the config
resolved from the active file's ancestry. -/
theorem c10_base_env_frame_witness :
    ∃ fp cfg, stC8.activeFile = some fp ∧ getP4Config stC8.fs fp = Except.ok (some cfg) ∧
      (SpawnReq.mk "p4 opened" ["proj"] [("P4CLIENT", "dev")]).env =
        dictUpdate stC8.baseEnv cfg ∧
      (SpawnReq.mk "p4 opened" ["proj"] [("P4CLIENT", "dev")]).cwd = fp.dropLast :=
  (c10_base_env_frame stC8 "p4 opened").2 ⟨"p4 opened", ["proj"], [("P4CLIENT", "dev")]⟩
    (by decide)

end P4
